import Mathlib

/-!
Verification of the DreamWeaver bot's message handlers (`src/main.py`).

The repository is a thin Telegram front-end to the Stability image-generation
API.  The only non-static behaviour lives in two async handlers:

* `handle_text` (main.py lines 72-116): parses a `/generate <prompt>` text,
  validates the prompt, sends a status message, issues one generation call
  with fixed parameters, forwards the first image artifact as a photo reply,
  and maps failures of the call or of response processing to an in-place edit
  of the status message;
* `error_handler` (main.py lines 118-124): logs and best-effort replies.

Shallow embedding: message texts and byte payloads are `List Char` /
`List Nat`; the transport and the generation service are an explicit
environment (`Env`), holding the result of the remote call (`Except`, since
the Python call may raise, including lazily while iterating the returned
generator) and optional exceptions raised by the two awaited transport
operations that occur after the call inside the `try` block (`reply_photo`,
`status_message.delete`).  A handler returns the ordered trace of externally
observable effects together with the exception escaping it (`none` when it
returns normally).  The `edit_text` performed inside the `except` branch and
the log statements are modelled as non-raising, matching the spec's
abstraction level.
-/

/-- Enum value for `generation.ARTIFACT_IMAGE` from the Stability protobufs.
The code only ever compares `artifact.type` against this named constant, so
the concrete numeral is irrelevant to every claim. -/
def ARTIFACT_IMAGE : Nat := 1

/-- Enum value for `generation.SAMPLER_K_DPMPP_2M`, the fixed named sampler
the code passes; again only its identity as a named constant matters. -/
def SAMPLER_K_DPMPP_2M : Nat := 8

/-- One artifact of a generation response: a type tag and a binary payload
(`artifact.type`, `artifact.binary`). -/
structure Artifact where
  type : Nat
  binary : List Nat
deriving DecidableEq, Repr

/-- One entry of the generation response (`resp` in `for resp in answers`),
holding its ordered artifact list (`resp.artifacts`). -/
structure Answer where
  artifacts : List Artifact
deriving DecidableEq, Repr

/-- The outbound request of `stability_api.generate(...)` (main.py 88-97). -/
structure GenRequest where
  prompt : List Char
  seed : Int
  steps : Nat
  cfg_scale : Rat
  width : Nat
  height : Nat
  samples : Nat
  sampler : Nat
deriving DecidableEq, Repr

/-- Externally observable effects a handler can perform, in program order. -/
inductive Effect where
  /-- `update.message.reply_text(text)` -/
  | replyText (text : List Char)
  /-- the `reply_text` that creates the "generating" status message -/
  | statusCreate (text : List Char)
  /-- invocation of `stability_api.generate` with the given request -/
  | genCall (req : GenRequest)
  /-- `update.message.reply_photo(photo=..., caption=...)` -/
  | replyPhoto (payload : List Nat) (caption : List Char)
  /-- `status_message.delete()` -/
  | statusDelete
  /-- `status_message.edit_text(text)` -/
  | statusEdit (text : List Char)
  /-- `logger.error(text)` -/
  | logError (text : List Char)
deriving DecidableEq, Repr

/-- Environment of one `handle_text` invocation: the current time (the value
`int(time.time())` evaluates to), the outcome of the remote call, and the
exceptions, if any, raised by the two awaited sends inside the `try` block. -/
structure Env where
  now : Int
  genResult : Except (List Char) (List Answer)
  photoRaises : Option (List Char)
  deleteRaises : Option (List Char)

/-- The command literal `'/generate '` from `message_text.startswith('/generate ')`. -/
def genCmd : List Char := "/generate ".toList

/-- Whitespace as stripped by Python's `str.strip()` (ASCII subset; the
claims never exercise non-ASCII whitespace). -/
def pyIsSpace (c : Char) : Bool :=
  c = ' ' || c = '\t' || c = '\n' || c = '\r' || c = '\x0b' || c = '\x0c'

/-- Python `s.strip()`: drop leading and trailing whitespace. -/
def pyStrip (s : List Char) : List Char :=
  ((s.dropWhile pyIsSpace).reverse.dropWhile pyIsSpace).reverse

/-- `"🎨 Generating your image... Please wait!"` (main.py 84). -/
def statusText : List Char := "🎨 Generating your image... Please wait!".toList

/-- `"Please provide a description after /generate"` (main.py 80). -/
def emptyPromptText : List Char := "Please provide a description after /generate".toList

/-- `"❌ Sorry, there was an error generating your image. Please try again later."`
(main.py 116). -/
def errorText : List Char :=
  "❌ Sorry, there was an error generating your image. Please try again later.".toList

/-- `"Sorry, something went wrong. Please try again later."` (main.py 122). -/
def genericErrorText : List Char :=
  "Sorry, something went wrong. Please try again later.".toList

/-- `f"Error generating image: {str(e)}"` minus the error detail (main.py 115). -/
def logTag : List Char := "Error generating image: ".toList

/-- `f"🎨 Generated image for: '{prompt}'"` (main.py 109). -/
def captionFor (prompt : List Char) : List Char :=
  "🎨 Generated image for: \x27".toList ++ prompt ++ "\x27".toList

/-- The caption exactly as the spec's success-path sentence writes it,
`"Generated image for: '<prompt>'"` — for comparison with `captionFor`. -/
def specCaptionFor (prompt : List Char) : List Char :=
  "Generated image for: \x27".toList ++ prompt ++ "\x27".toList

/-- `f"Update {update} caused error {context.error}"` (main.py 120). -/
def updateLogText (u err : List Char) : List Char :=
  "Update ".toList ++ u ++ " caused error ".toList ++ err

/-- The request built at main.py 88-97: every field but the prompt is a
constant, and the seed is the time-derived integer. -/
def mkRequest (prompt : List Char) (now : Int) : GenRequest :=
  { prompt := prompt
    seed := now
    steps := 30
    cfg_scale := 7
    width := 512
    height := 512
    samples := 1
    sampler := SAMPLER_K_DPMPP_2M }

/-- The inner loop of main.py 101-102 on one entry: first artifact whose
type is `ARTIFACT_IMAGE`, scanning in order. -/
def firstImageIn : List Artifact → Option Artifact
  | [] => none
  | a :: rest => if a.type = ARTIFACT_IMAGE then some a else firstImageIn rest

/-- The nested loops of main.py 100-102: first image-typed artifact over the
entries in order, artifacts within each entry in order. -/
def firstImage : List Answer → Option Artifact
  | [] => none
  | r :: rest =>
    match firstImageIn r.artifacts with
    | some a => some a
    | none => firstImage rest

/-- The `try` block of main.py 86-112, given the already-validated prompt:
returns the effect trace of the block and the exception it raises, if any.
The generation call is always invoked once; on success the loops forward the
first image artifact as a photo and delete the status message, any of which
may raise per the environment. -/
def tryBody (prompt : List Char) (env : Env) : List Effect × Option (List Char) :=
  let req := mkRequest prompt env.now
  match env.genResult with
  | Except.error e => ([Effect.genCall req], some e)
  | Except.ok answers =>
    match firstImage answers with
    | none => ([Effect.genCall req], none)
    | some a =>
      match env.photoRaises with
      | some e => ([Effect.genCall req], some e)
      | none =>
        match env.deleteRaises with
        | some e =>
          ([Effect.genCall req, Effect.replyPhoto a.binary (captionFor prompt)], some e)
        | none =>
          ([Effect.genCall req, Effect.replyPhoto a.binary (captionFor prompt),
            Effect.statusDelete], none)

/-- `handle_text` (main.py 72-116).  Returns the effect trace and the
exception escaping the handler (`none`: it returns normally).  Mirrors the
source line by line: the `startswith('/generate ')` guard, the prompt
`message_text[9:].strip()`, the empty-prompt early reply, the status
message, the `try` block, and the `except` branch that logs the detail and
edits the status message in place without re-raising. -/
def handle_text (msg : List Char) (env : Env) : List Effect × Option (List Char) :=
  if List.isPrefixOf genCmd msg then
    let prompt := pyStrip (List.drop 9 msg)
    if prompt = [] then
      ([Effect.replyText emptyPromptText], none)
    else
      let r := tryBody prompt env
      match r.2 with
      | none => (Effect.statusCreate statusText :: r.1, none)
      | some e =>
        (Effect.statusCreate statusText ::
          (r.1 ++ [Effect.logError (logTag ++ e), Effect.statusEdit errorText]), none)
  else ([], none)

/-- `update.message.reply_text(text)` as a fallible operation: performs the
effect, or raises per its environment without the message being delivered. -/
def sendReply (text : List Char) (raises : Option (List Char)) :
    List Effect × Option (List Char) :=
  match raises with
  | some e => ([], some e)
  | none => ([Effect.replyText text], none)

/-- A bare `try: ... except: pass` around an operation: same effects, no
exception escapes. -/
def attempt (r : List Effect × Option (List Char)) : List Effect × Option (List Char) :=
  (r.1, none)

/-- `error_handler` (main.py 118-124): log the update and error, then
attempt the generic reply with every secondary failure swallowed. -/
def error_handler (u err : List Char) (replyRaises : Option (List Char)) :
    List Effect × Option (List Char) :=
  let r := attempt (sendReply genericErrorText replyRaises)
  (Effect.logError (updateLogText u err) :: r.1, r.2)

/-- The generation requests appearing in a trace, in order. -/
def genReqs : List Effect → List GenRequest
  | [] => []
  | Effect.genCall r :: rest => r :: genReqs rest
  | _ :: rest => genReqs rest

/-- The prompts of the generation requests in a trace. -/
def genPrompts (t : List Effect) : List (List Char) :=
  (genReqs t).map GenRequest.prompt

/-- The payloads of the photo replies in a trace, in order. -/
def photoPayloads : List Effect → List (List Nat)
  | [] => []
  | Effect.replyPhoto b _ :: rest => b :: photoPayloads rest
  | _ :: rest => photoPayloads rest

/-- The captions of the photo replies in a trace, in order. -/
def photoCaptions : List Effect → List (List Char)
  | [] => []
  | Effect.replyPhoto _ c :: rest => c :: photoCaptions rest
  | _ :: rest => photoCaptions rest

/-- The first image artifact the environment's response offers, if any. -/
def firstImageOfEnv (env : Env) : Option Artifact :=
  match env.genResult with
  | Except.ok answers => firstImage answers
  | Except.error _ => none

/-- `r.steps=30, cfg_scale=7.0, width=512, height=512, samples=1,
sampler=SAMPLER_K_DPMPP_2M, seed = the time-derived integer`: the fixed
parameter set of main.py 90-96. -/
def fixedParams (r : GenRequest) (now : Int) : Bool :=
  r.steps == 30 && decide (r.cfg_scale = (7 : Rat)) && r.width == 512 &&
    r.height == 512 && r.samples == 1 && r.sampler == SAMPLER_K_DPMPP_2M &&
    r.seed == now

/-! ## Helper lemmas -/

lemma genCmd_eq :
    genCmd = ['/', 'g', 'e', 'n', 'e', 'r', 'a', 't', 'e', ' '] := rfl

lemma isPrefixOf_exists {p l : List Char} (h : List.isPrefixOf p l = true) :
    ∃ t, l = p ++ t := by
  induction p generalizing l with
  | nil => exact ⟨l, rfl⟩
  | cons c cs ih =>
    rcases l with _ | ⟨b, bs⟩
    · simp [List.isPrefixOf] at h
    · simp only [List.isPrefixOf, Bool.and_eq_true, beq_iff_eq] at h
      obtain ⟨rfl, h2⟩ := h
      obtain ⟨t, rfl⟩ := ih h2
      exact ⟨t, rfl⟩

/-- With the `'/generate '` guard satisfied, stripping the code's slice
`message_text[9:]` (which keeps the guard string's trailing space) gives the
same string as stripping the remainder after the full 10-character guard. -/
lemma pyStrip_drop9 (msg : List Char) (h : List.isPrefixOf genCmd msg = true) :
    pyStrip (List.drop 9 msg) = pyStrip (List.drop 10 msg) := by
  obtain ⟨t, rfl⟩ := isPrefixOf_exists h
  rfl

lemma genReqs_append (l₁ l₂ : List Effect) :
    genReqs (l₁ ++ l₂) = genReqs l₁ ++ genReqs l₂ := by
  induction l₁ with
  | nil => rfl
  | cons e rest ih => cases e <;> simp [genReqs, ih]

lemma photoPayloads_append (l₁ l₂ : List Effect) :
    photoPayloads (l₁ ++ l₂) = photoPayloads l₁ ++ photoPayloads l₂ := by
  induction l₁ with
  | nil => rfl
  | cons e rest ih => cases e <;> simp [photoPayloads, ih]

/-- The `try` block issues the generation call exactly once, with the fixed
request built from the prompt and the current time, in every environment. -/
lemma genReqs_tryBody (p : List Char) (env : Env) :
    genReqs (tryBody p env).1 = [mkRequest p env.now] := by
  rcases env with ⟨now, gr, pr, dr⟩
  rcases gr with e | answers
  · simp [tryBody, genReqs]
  · rcases h : firstImage answers with _ | a
    · simp [tryBody, genReqs, h]
    · rcases pr with _ | e1
      · rcases dr with _ | e2
        · simp [tryBody, genReqs, h]
        · simp [tryBody, genReqs, h]
      · simp [tryBody, genReqs, h]

/-- The photos the `try` block sends form a sublist of the one-element-or-
empty list holding the first image artifact's payload: at most one photo,
and only ever that artifact's bytes. -/
lemma photoPayloads_tryBody (p : List Char) (env : Env) :
    List.Sublist (photoPayloads (tryBody p env).1)
      ((firstImageOfEnv env).toList.map Artifact.binary) := by
  rcases env with ⟨now, gr, pr, dr⟩
  rcases gr with e | answers
  · simp [tryBody, photoPayloads, firstImageOfEnv]
  · rcases h : firstImage answers with _ | a
    · simp [tryBody, photoPayloads, firstImageOfEnv, h]
    · rcases pr with _ | e1
      · rcases dr with _ | e2
        · simp [tryBody, photoPayloads, firstImageOfEnv, h]
        · simp [tryBody, photoPayloads, firstImageOfEnv, h]
      · simp [tryBody, photoPayloads, firstImageOfEnv, h]

/-- In the non-empty-prompt branch the handler's trace is the status message
followed by the `try` block's trace and a possibly-empty catch tail that
contains no generation call and no photo. -/
lemma handle_text_trace (msg : List Char) (env : Env)
    (hpre : List.isPrefixOf genCmd msg = true)
    (hne : pyStrip (List.drop 9 msg) ≠ []) :
    ∃ tail, (handle_text msg env).1 =
        Effect.statusCreate statusText ::
          ((tryBody (pyStrip (List.drop 9 msg)) env).1 ++ tail)
      ∧ genReqs tail = [] ∧ photoPayloads tail = [] := by
  cases hc : (tryBody (pyStrip (List.drop 9 msg)) env).2 with
  | none =>
    refine ⟨[], ?_, rfl, rfl⟩
    simp [handle_text, hpre, hne, hc]
  | some e =>
    refine ⟨[Effect.logError (logTag ++ e), Effect.statusEdit errorText], ?_, rfl, rfl⟩
    simp [handle_text, hpre, hne, hc]

/-! ## Claims -/

/-- C1 (counterexample): the claim's caption `"Generated image for: '<prompt>'"`
is not what the handler sends.  At the concrete input `/generate cat` with a
response holding one image artifact, the one photo reply carries the caption
`"🎨 Generated image for: 'cat'"`, which differs from the claimed caption. -/
theorem C1_claim_counterexample :
    photoCaptions (handle_text ("/generate cat".toList)
        { now := 0,
          genResult := Except.ok [⟨[⟨ARTIFACT_IMAGE, [7, 7, 7]⟩]⟩],
          photoRaises := none, deleteRaises := none }).1
      = [captionFor ("cat".toList)] ∧
    captionFor ("cat".toList) ≠ specCaptionFor ("cat".toList) := by
  exact ⟨by decide, by decide⟩

/-- C1 (amended): for every generation-service response containing at least
one entry with at least one image-typed artifact (and the transport sends
succeeding), the handler with a non-empty prompt sends exactly one photo
reply whose payload is the first image artifact's bytes unmodified, with
caption exactly `"🎨 Generated image for: '<prompt>'"`, then deletes the
status message, then stops — the trace holds nothing further. -/
theorem C1_first_image_sent (msg : List Char) (env : Env)
    (answers : List Answer) (a : Artifact)
    (hpre : List.isPrefixOf genCmd msg = true)
    (hne : pyStrip (List.drop 9 msg) ≠ [])
    (hok : env.genResult = Except.ok answers)
    (hfi : firstImage answers = some a)
    (hph : env.photoRaises = none)
    (hdel : env.deleteRaises = none) :
    handle_text msg env =
      ([Effect.statusCreate statusText,
        Effect.genCall (mkRequest (pyStrip (List.drop 9 msg)) env.now),
        Effect.replyPhoto a.binary (captionFor (pyStrip (List.drop 9 msg))),
        Effect.statusDelete], none) := by
  have ht : tryBody (pyStrip (List.drop 9 msg)) env =
      ([Effect.genCall (mkRequest (pyStrip (List.drop 9 msg)) env.now),
        Effect.replyPhoto a.binary (captionFor (pyStrip (List.drop 9 msg))),
        Effect.statusDelete], none) := by
    simp [tryBody, hok, hfi, hph, hdel]
  simp [handle_text, hpre, hne, ht]

/-- C1 witness: the amended theorem at `/generate cat`, a response whose
first artifact is not image-typed and whose second is. -/
theorem C1_first_image_sent_witness :
    handle_text ("/generate cat".toList)
        { now := 5,
          genResult := Except.ok [⟨[⟨0, [9, 9]⟩, ⟨ARTIFACT_IMAGE, [1, 2, 3]⟩]⟩],
          photoRaises := none, deleteRaises := none } =
      ([Effect.statusCreate statusText,
        Effect.genCall (mkRequest ("cat".toList) 5),
        Effect.replyPhoto [1, 2, 3] (captionFor ("cat".toList)),
        Effect.statusDelete], none) :=
  C1_first_image_sent ("/generate cat".toList)
    { now := 5,
      genResult := Except.ok [⟨[⟨0, [9, 9]⟩, ⟨ARTIFACT_IMAGE, [1, 2, 3]⟩]⟩],
      photoRaises := none, deleteRaises := none }
    [⟨[⟨0, [9, 9]⟩, ⟨ARTIFACT_IMAGE, [1, 2, 3]⟩]⟩] ⟨ARTIFACT_IMAGE, [1, 2, 3]⟩
    (by decide) (by decide) rfl (by decide) rfl rfl

/-- C2: for every message text beginning with the `'/generate '` guard whose
remainder after the guard trims to a non-empty prompt P, the handler issues
exactly one generation call, and its prompt field is exactly P — in every
environment, including ones where the call or later processing raises. -/
theorem C2_single_call_exact_prompt (msg : List Char) (env : Env)
    (hpre : List.isPrefixOf genCmd msg = true)
    (hne : pyStrip (List.drop (genCmd.length) msg) ≠ []) :
    genPrompts (handle_text msg env).1 = [pyStrip (List.drop (genCmd.length) msg)] := by
  have hlen : genCmd.length = 10 := rfl
  rw [hlen] at hne ⊢
  have h9 : pyStrip (List.drop 9 msg) = pyStrip (List.drop 10 msg) :=
    pyStrip_drop9 msg hpre
  have hne9 : pyStrip (List.drop 9 msg) ≠ [] := by rw [h9]; exact hne
  obtain ⟨tail, htr, hg, -⟩ := handle_text_trace msg env hpre hne9
  rw [htr]
  simp [genPrompts, genReqs, genReqs_append, genReqs_tryBody, hg, mkRequest, h9]

/-- C2 witness: `/generate  a cat  ` (inner and surrounding whitespace) in an
environment where the remote call raises; the one call carries `a cat`. -/
theorem C2_single_call_exact_prompt_witness :
    genPrompts (handle_text ("/generate  a cat  ".toList)
        { now := 0, genResult := Except.error ("E".toList),
          photoRaises := none, deleteRaises := none }).1
      = [pyStrip (List.drop (genCmd.length) ("/generate  a cat  ".toList))] :=
  C2_single_call_exact_prompt _ _ (by decide) (by decide)

/-- C3: for every message text beginning with the guard whose remainder is
empty or whitespace-only after trimming, the handler makes no remote call
and its whole trace is the fixed "please provide a description" reply. -/
theorem C3_empty_prompt_reply (msg : List Char) (env : Env)
    (hpre : List.isPrefixOf genCmd msg = true)
    (hemp : pyStrip (List.drop (genCmd.length) msg) = []) :
    handle_text msg env = ([Effect.replyText emptyPromptText], none) := by
  have hlen : genCmd.length = 10 := rfl
  rw [hlen] at hemp
  have h9 : pyStrip (List.drop 9 msg) = [] := by
    rw [pyStrip_drop9 msg hpre]; exact hemp
  simp [handle_text, hpre, h9]

/-- C3 witness: `/generate` followed only by whitespace. -/
theorem C3_empty_prompt_reply_witness :
    handle_text ("/generate    ".toList)
        { now := 0, genResult := Except.error ("E".toList),
          photoRaises := none, deleteRaises := none }
      = ([Effect.replyText emptyPromptText], none) :=
  C3_empty_prompt_reply _ _ (by decide) (by decide)

/-- C4: whenever the `try` block — the remote call or the processing of its
response — raises an exception, the handler catches it, logs the detail,
edits the status message in place to the fixed error text, and returns
normally: nothing escapes. -/
theorem C4_exception_caught_logged (msg : List Char) (env : Env) (e : List Char)
    (hpre : List.isPrefixOf genCmd msg = true)
    (hne : pyStrip (List.drop 9 msg) ≠ [])
    (hexc : (tryBody (pyStrip (List.drop 9 msg)) env).2 = some e) :
    handle_text msg env =
      (Effect.statusCreate statusText ::
        ((tryBody (pyStrip (List.drop 9 msg)) env).1 ++
          [Effect.logError (logTag ++ e), Effect.statusEdit errorText]), none) := by
  simp [handle_text, hpre, hne, hexc]

/-- C4 witness: the remote call raises `boom` on `/generate cat`; the
handler's trace ends with the log and the status-message edit, and the
escaped-exception slot is `none`. -/
theorem C4_exception_caught_logged_witness :
    handle_text ("/generate cat".toList)
        { now := 3, genResult := Except.error ("boom".toList),
          photoRaises := none, deleteRaises := none }
      = ([Effect.statusCreate statusText,
          Effect.genCall (mkRequest ("cat".toList) 3),
          Effect.logError (logTag ++ "boom".toList),
          Effect.statusEdit errorText], none) :=
  C4_exception_caught_logged _ _ _ (by decide) (by decide) (by decide)

/-- C5: when the response holds entries but none with an image-typed
artifact, the handler's whole trace is the status message and the one
generation call: no photo, no error or success reply, and the status message
is neither edited nor deleted. -/
theorem C5_no_image_silent (msg : List Char) (env : Env) (answers : List Answer)
    (hpre : List.isPrefixOf genCmd msg = true)
    (hne : pyStrip (List.drop 9 msg) ≠ [])
    (hok : env.genResult = Except.ok answers)
    (hnone : firstImage answers = none) :
    handle_text msg env =
      ([Effect.statusCreate statusText,
        Effect.genCall (mkRequest (pyStrip (List.drop 9 msg)) env.now)], none) := by
  have ht : tryBody (pyStrip (List.drop 9 msg)) env =
      ([Effect.genCall (mkRequest (pyStrip (List.drop 9 msg)) env.now)], none) := by
    simp [tryBody, hok, hnone]
  simp [handle_text, hpre, hne, ht]

/-- C5 witness: one entry with one non-image artifact. -/
theorem C5_no_image_silent_witness :
    handle_text ("/generate cat".toList)
        { now := 2, genResult := Except.ok [⟨[⟨0, [4]⟩]⟩],
          photoRaises := none, deleteRaises := none }
      = ([Effect.statusCreate statusText,
          Effect.genCall (mkRequest ("cat".toList) 2)], none) :=
  C5_no_image_silent _ _ _ (by decide) (by decide) rfl (by decide)

/-- C6: for every incoming message and every environment, the handler issues
at most one generation request and sends at most one photo; the photos it
sends form a sublist of the one-element-or-empty list holding the first
image-typed artifact's payload, so the first image artifact wins. -/
theorem C6_at_most_one_call_one_photo (msg : List Char) (env : Env) :
    (genReqs (handle_text msg env).1).length ≤ 1 ∧
    (photoPayloads (handle_text msg env).1).length ≤ 1 ∧
    List.Sublist (photoPayloads (handle_text msg env).1)
      ((firstImageOfEnv env).toList.map Artifact.binary) := by
  by_cases hpre : List.isPrefixOf genCmd msg = true
  · by_cases hne : pyStrip (List.drop 9 msg) = []
    · refine ⟨?_, ?_, ?_⟩ <;> simp [handle_text, hpre, hne, genReqs, photoPayloads]
    · obtain ⟨tail, htr, hg, hp⟩ := handle_text_trace msg env hpre hne
      have hgr : genReqs (handle_text msg env).1 =
          [mkRequest (pyStrip (List.drop 9 msg)) env.now] := by
        rw [htr]; simp [genReqs, genReqs_append, genReqs_tryBody, hg]
      have hpp : photoPayloads (handle_text msg env).1 =
          photoPayloads (tryBody (pyStrip (List.drop 9 msg)) env).1 := by
        rw [htr]; simp [photoPayloads, photoPayloads_append, hp]
      have hub : ((firstImageOfEnv env).toList.map Artifact.binary).length ≤ 1 := by
        cases firstImageOfEnv env <;> simp
      refine ⟨?_, ?_, ?_⟩
      · rw [hgr]; simp
      · rw [hpp]
        exact Nat.le_trans
          (List.Sublist.length_le (photoPayloads_tryBody (pyStrip (List.drop 9 msg)) env))
          hub
      · rw [hpp]; exact photoPayloads_tryBody _ env
  · have hf : List.isPrefixOf genCmd msg = false := by
      cases hb : List.isPrefixOf genCmd msg
      · rfl
      · exact absurd hb hpre
    refine ⟨?_, ?_, ?_⟩ <;> simp [handle_text, hf, genReqs, photoPayloads]

/-- C7: every generation request in the handler's trace, for every message
and environment, carries exactly steps 30, cfg scale 7.0, width 512, height
512, one sample, the fixed named sampler, and the time-derived seed — only
the prompt varies. -/
theorem C7_fixed_parameter_set (msg : List Char) (env : Env) :
    ((genReqs (handle_text msg env).1).all fun r => fixedParams r env.now) = true := by
  by_cases hpre : List.isPrefixOf genCmd msg = true
  · by_cases hne : pyStrip (List.drop 9 msg) = []
    · simp [handle_text, hpre, hne, genReqs]
    · obtain ⟨tail, htr, hg, -⟩ := handle_text_trace msg env hpre hne
      rw [htr]
      simp [genReqs, genReqs_append, genReqs_tryBody, hg, fixedParams, mkRequest]
  · have hf : List.isPrefixOf genCmd msg = false := by
      cases hb : List.isPrefixOf genCmd msg
      · rfl
      · exact absurd hb hpre
    simp [handle_text, hf, genReqs]

/-- C8: for every update routed to it, the global error handler logs the
update and error, then performs exactly what the best-effort reply attempt
produced — the generic "something went wrong" reply when the send works,
nothing when it raises — and in either case no exception escapes. -/
theorem C8_error_handler_swallows (u err : List Char) (replyRaises : Option (List Char)) :
    error_handler u err replyRaises =
      (Effect.logError (updateLogText u err) ::
        (sendReply genericErrorText replyRaises).1, none) := by
  cases replyRaises <;> rfl

/-- C9: a message text not starting with the exact ten characters
`'/generate '` — such as the bare `/generate` or `/generatex` — makes the
handler a no-op: empty trace, no escaping exception. -/
theorem C9_non_command_noop (msg : List Char) (env : Env)
    (h : List.isPrefixOf genCmd msg = false) :
    handle_text msg env = ([], none) := by
  simp [handle_text, h]

/-- C9 witness: the bare `/generate` (no trailing space). -/
theorem C9_non_command_noop_witness :
    handle_text ("/generate".toList)
        { now := 0, genResult := Except.error ("E".toList),
          photoRaises := none, deleteRaises := none }
      = ([], none) :=
  C9_non_command_noop _ _ (by decide)

/-- C10: when the photo reply has gone out and `status_message.delete()`
then raises, the `except` branch still edits the status message to the fixed
error text: the one request's trace holds both the successful photo reply
and the error edit. -/
theorem C10_photo_then_error_edit (msg : List Char) (env : Env)
    (answers : List Answer) (a : Artifact) (e : List Char)
    (hpre : List.isPrefixOf genCmd msg = true)
    (hne : pyStrip (List.drop 9 msg) ≠ [])
    (hok : env.genResult = Except.ok answers)
    (hfi : firstImage answers = some a)
    (hph : env.photoRaises = none)
    (hdel : env.deleteRaises = some e) :
    handle_text msg env =
      ([Effect.statusCreate statusText,
        Effect.genCall (mkRequest (pyStrip (List.drop 9 msg)) env.now),
        Effect.replyPhoto a.binary (captionFor (pyStrip (List.drop 9 msg))),
        Effect.logError (logTag ++ e),
        Effect.statusEdit errorText], none) := by
  have ht : tryBody (pyStrip (List.drop 9 msg)) env =
      ([Effect.genCall (mkRequest (pyStrip (List.drop 9 msg)) env.now),
        Effect.replyPhoto a.binary (captionFor (pyStrip (List.drop 9 msg)))], some e) := by
    simp [tryBody, hok, hfi, hph, hdel]
  simp [handle_text, hpre, hne, ht]

/-- C10 witness: delete fails with `gone` after the photo reply succeeded. -/
theorem C10_photo_then_error_edit_witness :
    handle_text ("/generate cat".toList)
        { now := 4, genResult := Except.ok [⟨[⟨ARTIFACT_IMAGE, [1, 2]⟩]⟩],
          photoRaises := none, deleteRaises := some ("gone".toList) }
      = ([Effect.statusCreate statusText,
          Effect.genCall (mkRequest ("cat".toList) 4),
          Effect.replyPhoto [1, 2] (captionFor ("cat".toList)),
          Effect.logError (logTag ++ "gone".toList),
          Effect.statusEdit errorText], none) :=
  C10_photo_then_error_edit ("/generate cat".toList)
    { now := 4, genResult := Except.ok [⟨[⟨ARTIFACT_IMAGE, [1, 2]⟩]⟩],
      photoRaises := none, deleteRaises := some ("gone".toList) }
    [⟨[⟨ARTIFACT_IMAGE, [1, 2]⟩]⟩] ⟨ARTIFACT_IMAGE, [1, 2]⟩ ("gone".toList)
    (by decide) (by decide) rfl (by decide) rfl rfl
